import Mathlib

/-
Verification development for the ShellCraft shell
(src/ProjectOs/project/ShellCraft.py and its collaborator modules
autocorrect.py, smart_insights.py).

The embedding models one execution cycle of the shell: the line-level
parsing done in `shell_loop` (splitting on the pipe character and
tokenizing each stage with `shlex.split`), and the whole of
`execute_commands` (redirection resolution, builtin dispatch, the stage
loop with `subprocess.run`, the autocorrect and learning hooks, and the
error paths).  Interaction with the operating system is represented by
an oracle record `Env` describing the world the shell runs in (which
files open, what `os.chdir` does, what each spawned process produces,
whether the learning hook raises), and the observable behaviour of a run
is an ordered trace of `Event`s plus either a returned status or an
uncaught Python exception.
-/

set_option maxRecDepth 40000

namespace ShellCraft

/-- Outcome of `os.chdir(target)` in the modelled world: success,
`FileNotFoundError`, or `NotADirectoryError`. -/
inductive ChdirResult
  | ok
  | notFound
  | notADir
deriving DecidableEq

/-- Fields of a completed `subprocess.run(..., stdout=PIPE, stderr=PIPE,
text=True)` call that `execute_commands` reads: captured stdout, captured
stderr, and the return code. -/
structure SpawnOk where
  stdout : String
  stderr : String
  returncode : Int
deriving DecidableEq

/-- Outcome of `subprocess.run` when handed a valid stdin: either the
command is not found (`FileNotFoundError`) or the process ran. -/
inductive SpawnResult
  | notFound
  | ok (r : SpawnOk)
deriving DecidableEq

/-- Python exceptions that can propagate out of the modelled code paths:
`ValueError` (raised by `shlex.split`), `IndexError` (out-of-range list
subscript), `NotADirectoryError` (raised by `os.chdir`). -/
inductive Exn
  | valueError (msg : String)
  | indexError
  | notADirectoryError (target : String)
deriving DecidableEq

/-- What the `stdin_fd` / `prev_pipe` variables of `execute_commands` can
hold: the shell's own standard input, an opened file object, or — after a
stage has run — the *string* `result.stdout` (the code stores the captured
text, not a file descriptor). -/
inductive Src
  | stdinStd
  | file (name : String)
  | strData (s : String)
deriving DecidableEq

/-- Observable actions of one execution cycle, in order:
writes to the shell's stdout / stderr via `print`, calls of the
`display_error` collaborator (smart_insights.py), process spawns,
invocations of the learning hook `learn_command`, file opens/closes and
directory changes. -/
inductive Event
  | printOut (s : String)
  | printErr (s : String)
  | displayError (cmd : String) (details : String)
  | spawned (argv : List String) (src : Src)
  | learned (name : String)
  | openedRead (name : String)
  | openedWrite (name : String)
  | closedRead (name : String)
  | closedWrite (name : String)
  | chdirTo (path : String)
deriving DecidableEq

/-- The world the shell runs in.  `openRead f` says whether `open(f, 'r')`
succeeds (false models `FileNotFoundError`); output files are modelled as
always creatable, since the code never guards `open(f, 'w')` and no claim
exercises that failure.  `spawn` gives the result of `subprocess.run` for
an argv (when stdin is a real descriptor), `recordErr n` is `some msg`
when `learn_command n` raises an exception with text `msg`, and `learned`
is the persisted learned-command list consulted by `autocorrect_command`. -/
structure Env where
  home : String
  learned : List String
  openRead : String → Bool
  chdir : String → ChdirResult
  spawn : List String → SpawnResult
  recordErr : String → Option String

/- ------------------------------------------------------------------
autocorrect.py
------------------------------------------------------------------ -/

/-- The `COMMON_TYPOS` dictionary of autocorrect.py, transcribed entry for
entry in source order (duplicates included). -/
def COMMON_TYPOS : List (String × List String) :=
  [ ("ls", ["sl", "lz", "lx", "lp", "ld", "la", "lss", "lsz", "lsx", "lsq", "lsw",
      "lzs", "lsd", "ls1", "ls;", "l.s", "l-s"]),
    ("cat", ["cta", "ct", "act", "cqt", "cst", "czt", "cag", "catt", "caa", "cwt",
      "ctt", "car", "catr", "ctq", "caat", "cay", "caz"]),
    ("grep", ["gtep", "gerp", "grp", "greo", "geep", "grpe", "gref", "grepp", "grrp",
      "gtrep", "gre;", "grwp", "greo", "grfp", "gre0", "grdp", "greop"]),
    ("cd", ["dc", "vd", "xd", "cs", "xv", "sd", "cz", "cf", "cx", "cds", "cdd", "cfd",
      "ccd", "cvd", "xd", "cd.", "cd/"]),
    ("echo", ["ehco", "eho", "eco", "ecco", "ech", "ehoh", "echp", "echi", "ehoh",
      "ech0", "echp", "echu", "eho0", "ech9", "ehc", "echy", "echp"]),
    ("pwd", ["pdw", "pdd", "pw", "pwf", "pwr", "pwq", "pwe", "pww", "pwdc", "pwdx",
      "pwd1", "pwx", "pwdd", "pwde", "pwv", "ppwd"]),
    ("mkdir", ["mdkir", "mkidr", "mkdr", "mkr", "mkkir", "mkdirr", "mkdir1", "mkid",
      "mkidr", "mkdirr", "mkrd", "mkidr", "mkdir2", "mkrir", "mkrdr", "mkkdir"]),
    ("rmdir", ["rdmir", "rmidr", "rmdr", "rmir", "rmdr", "rmdirr", "rmder", "rmidr",
      "rmdir1", "rmdirr", "rmdir2", "rmddr", "rmdor", "rmdjr"]),
    ("rm", ["mr", "rn", "rmm", "rmmr", "rjm", "rwm", "rkm", "rvm", "rrm", "rmn",
      "r.m", "r;m", "rm,", "rmmn", "rmk"]),
    ("cp", ["pc", "cpo", "cpp", "cpq", "c0p", "cpl", "cpi", "cpz", "cp;", "cpm",
      "cpx", "cp,", "cp1", "ccp", "cp2"]),
    ("mv", ["vm", "mn", "mvb", "mvv", "mvvv", "mvf", "mvc", "mvg", "mvd", "mvn",
      "mvx", "mv;", "mv,", "mv1", "mvvb"]),
    ("touch", ["tuch", "touc", "touhc", "tuchh", "toch", "toucj", "touvh", "tuchc",
      "touchh", "toucx", "toucg", "toucq", "touh", "touhch", "tuchj"]),
    ("clear", ["cler", "claer", "clera", "cear", "cla", "clea", "clrar", "clrar", "cleear",
      "cleer", "clwar", "cldar", "clqar", "c;ear", "c,lear", "cleaf"]),
    ("exit", ["exot", "exiy", "exut", "exif", "eixt", "exiit", "exi", "exot", "exitx",
      "exot", "exotx", "exkt", "exotq", "exiot", "exutx", "exkt"]),
    ("find", ["fnid", "fidn", "fnd", "findd", "finn", "fihd", "fiod", "finf", "fijd",
      "fndd", "f8nd", "fjnd", "findf", "fins", "finds"]),
    ("head", ["haed", "hed", "headd", "hrad", "hade", "heda", "hedd", "heaad", "hwad",
      "heqd", "heasd", "hesd", "hrsd", "hedr", "hwad"]),
    ("tail", ["tali", "tial", "taol", "tall", "tiall", "talii", "taik", "taik", "tiall",
      "taill", "taol", "taliq", "tauk", "tqil", "tazl"]),
    ("sort", ["srot", "sotr", "sor", "soet", "sot", "sory", "sor5", "sortt", "soort",
      "sirt", "sotr", "so4t", "s0rt", "soert", "sart"]),
    ("chmod", ["chomd", "chmd", "chdmo", "chdm", "chd", "chmdo", "chmdd", "chmof", "chmld",
      "chdmo", "chmdo", "chmxd", "chm0d", "chjmd", "chmop"]),
    ("chown", ["chonw", "chowm", "choen", "chwon", "chwonw", "chownn", "chowb", "chowq",
      "ch0wn", "chawn", "chown1", "chownr", "chownu", "chownx", "chownm"]),
    ("man", ["amn", "mna", "maan", "mamn", "mn", "mann", "manb", "manm", "mwn",
      "mzn", "mqn", "mab", "mnan", "man1", "manq"]),
    ("less", ["lses", "les", "leess", "lss", "lesss", "lezs", "l3ss", "lews", "lsss",
      "lesx", "lessx", "lezs", "lqss", "leas", "lesz"]),
    ("more", ["mroe", "mre", "moer", "moee", "mor", "moree", "moore", "morf", "morz",
      "mo4e", "m0re", "mire", "mkre", "mire", "miree"]) ]

/-- ASCII lowercasing of one character; Python's `str.lower` restricted
to the ASCII range, which covers every command name the typo table and
the shell's builtins use. -/
def lowerChar (c : Char) : Char :=
  if 'A' ≤ c ∧ c ≤ 'Z' then Char.ofNat (c.toNat + 32) else c

/-- The expression `command.lower()`. -/
def pyLower (s : String) : String :=
  String.mk (s.data.map lowerChar)

/-- The flattened `(typo, command)` pairs in the iteration order of the
dict comprehension `{typo: cmd for cmd, typos in COMMON_TYPOS.items() for
typo in typos}`. -/
def TYPO_PAIRS : List (String × String) :=
  COMMON_TYPOS.flatMap (fun p => p.2.map (fun t => (t, p.1)))

/-- Lookup in `TYPO_CORRECTIONS`.  The Python dict comprehension lets a
later assignment to the same key overwrite an earlier one, so the lookup
takes the last pair in iteration order (found as the first pair of the
reversed list). -/
def TYPO_CORRECTIONS_get (t : String) : Option String :=
  List.lookup t TYPO_PAIRS.reverse

/-- The function `autocorrect_command` of autocorrect.py: try the typo
map on the lowercased name, then a case-insensitive match against the
learned-command list, else return the name unchanged. -/
def autocorrect_command (learned : List String) (command : String) : String :=
  let cmd_lower := pyLower command
  match TYPO_CORRECTIONS_get cmd_lower with
  | some cmd => cmd
  | none =>
    match learned.find? (fun lc => cmd_lower == pyLower lc) with
    | some lc => lc
    | none => command

/- ------------------------------------------------------------------
shell_loop line parsing: line.split on the pipe character, then
shlex.split on each stage substring
------------------------------------------------------------------ -/

/-- Character-level model of the Python `str.split` on one separator
character (here the pipe): split at every occurrence, keeping empty
fragments; the empty input yields one empty fragment. -/
def splitOnPipeL : List Char → List (List Char)
  | [] => [[]]
  | c :: cs =>
    if c = '|' then [] :: splitOnPipeL cs
    else
      match splitOnPipeL cs with
      | [] => [[c]]
      | r :: rs => (c :: r) :: rs

/-- The expression `line.split('|')` of shell_loop. -/
def split_on_pipe (line : String) : List String :=
  (splitOnPipeL line.data).map (fun l => String.mk l)

/-- Lexer state of `shlex` in posix mode with `whitespace_split=True`, as
used by `shlex.split`: outside quotes, inside a single or double quote,
or one character after a backslash (remembering the state to return to). -/
inductive LexState
  | normal
  | inQuote (q : Char)
  | escaped (back : LexState)

/-- Characters in `shlex.whitespace`. -/
def isShlexWs (c : Char) : Bool :=
  c = ' ' || c = '\t' || c = '\r' || c = '\n'

/-- The token scanner of `shlex.split` (posix rules, whitespace split):
whitespace separates tokens, single quotes group literally, double quotes
group with backslash escaping only `\` and `"`, a backslash outside
quotes escapes the next character.  At end of input an open quote raises
`ValueError("No closing quotation")` and a pending escape raises
`ValueError("No escaped character")`.  `tok` holds the current token's
characters in reverse; `started` records whether a token is in progress
(a closed empty quote still yields an empty token). -/
def shlexLoop : List Char → LexState → List Char → Bool → Except Exn (List String)
  | [], LexState.normal, tok, started =>
    Except.ok (if started then [String.mk tok.reverse] else [])
  | [], LexState.inQuote _, _, _ => Except.error (Exn.valueError "No closing quotation")
  | [], LexState.escaped _, _, _ => Except.error (Exn.valueError "No escaped character")
  | c :: cs, LexState.normal, tok, started =>
    if isShlexWs c then
      if started then
        (shlexLoop cs LexState.normal [] false).map (fun ts => String.mk tok.reverse :: ts)
      else
        shlexLoop cs LexState.normal tok started
    else if c = '\'' || c = '"' then
      shlexLoop cs (LexState.inQuote c) tok true
    else if c = '\\' then
      shlexLoop cs (LexState.escaped LexState.normal) tok true
    else
      shlexLoop cs LexState.normal (c :: tok) true
  | c :: cs, LexState.inQuote q, tok, started =>
    if c = q then
      shlexLoop cs LexState.normal tok started
    else if q = '"' && c = '\\' then
      shlexLoop cs (LexState.escaped (LexState.inQuote '"')) tok started
    else
      shlexLoop cs (LexState.inQuote q) (c :: tok) started
  | c :: cs, LexState.escaped back, tok, started =>
    match back with
    | LexState.inQuote q =>
      if c = q || c = '\\' then
        shlexLoop cs (LexState.inQuote q) (c :: tok) started
      else
        shlexLoop cs (LexState.inQuote q) (c :: '\\' :: tok) started
    | _ => shlexLoop cs LexState.normal (c :: tok) started

/-- The call `shlex.split(cmd)` of shell_loop. -/
def shlex_split (s : String) : Except Exn (List String) :=
  shlexLoop s.data LexState.normal [] false

/-- The list comprehension `[shlex.split(cmd) for cmd in command_strings]`:
tokenize each stage substring left to right, the first raised `ValueError`
propagating. -/
def tokenize_stages : List String → Except Exn (List (List String))
  | [] => Except.ok []
  | s :: ss =>
    match shlex_split s with
    | Except.error e => Except.error e
    | Except.ok toks => (tokenize_stages ss).map (fun rest => toks :: rest)

/- ------------------------------------------------------------------
Built-in commands (ShellCraft.py lines 21-41)
------------------------------------------------------------------ -/

/-- The two entries of the `BUILTIN_COMMANDS` dict. -/
inductive Builtin
  | cd
  | exit
deriving DecidableEq

/-- Membership lookup in `BUILTIN_COMMANDS`. -/
def BUILTIN_COMMANDS_get : String → Option Builtin
  | "cd" => some Builtin.cd
  | "exit" => some Builtin.exit
  | _ => none

/-- The target selection of `shell_cd`: the home directory when fewer
than two argument tokens are given, else `args[1]`. -/
def cd_target (env : Env) (args : List String) : String :=
  match args with
  | _ :: a1 :: _ => a1
  | _ => env.home

/-- The builtin `shell_cd`: `os.chdir` success changes the directory;
`FileNotFoundError` is caught and printed to stderr; any other
exception — in particular `NotADirectoryError` — is not caught and
propagates.  On the non-raising paths the function returns 1. -/
def shell_cd (env : Env) (args : List String) : Except Exn Nat × List Event :=
  let target_dir := cd_target env args
  match env.chdir target_dir with
  | ChdirResult.ok => (Except.ok 1, [Event.chdirTo target_dir])
  | ChdirResult.notFound =>
    (Except.ok 1,
      [Event.printErr ("shellcraft: cd: no such file or directory: " ++ target_dir)])
  | ChdirResult.notADir => (Except.error (Exn.notADirectoryError target_dir), [])

/-- The builtin `shell_exit`: ignores its arguments and returns 0. -/
def shell_exit (_env : Env) (_args : List String) : Except Exn Nat × List Event :=
  (Except.ok 0, [])

/-- Dispatch through `BUILTIN_COMMANDS[name](command_args)`. -/
def runBuiltin (env : Env) : Builtin → List String → Except Exn Nat × List Event
  | Builtin.cd, args => shell_cd env args
  | Builtin.exit, args => shell_exit env args

/- ------------------------------------------------------------------
execute_commands (ShellCraft.py lines 65-151)
------------------------------------------------------------------ -/

/-- First index of a token in a list, as Python's `list.index` (none when
the token is absent, which is what the `in` test guards). -/
def idxOf : List String → String → Option Nat
  | [], _ => none
  | x :: xs, t => if x = t then some 0 else (idxOf xs t).map (fun n => n + 1)

/-- The redirection-operator step applied to one boundary stage's token
list (lines 71-73 resp. 82-84): `none` when the operator is not in the
list; otherwise `index = toks.index(op)`, `filename = toks[index + 1]`
(an `IndexError` when the operator is the last token), and the stage's
token list is replaced by the slice `toks[:index]`. -/
def find_redirection (toks : List String) (op : String) :
    Option (Except Exn (List String × String)) :=
  match idxOf toks op with
  | none => none
  | some i =>
    match toks.drop (i + 1) with
    | [] => some (Except.error Exn.indexError)
    | f :: _ => some (Except.ok (toks.take i, f))

/-- The expression `" ".join(command_args)` used when reporting errors. -/
def joinArgs (args : List String) : String :=
  String.intercalate " " args

/-- How the `for` loop over stages ends: it falls off the end
(`completed`, after which the function closes a redirected stdout file
and returns 1), it executes a `return status` inside the loop, or an
uncaught exception is raised. -/
inductive LoopRes
  | completed
  | returned (status : Nat)
  | raised (e : Exn)
deriving DecidableEq

/-- Adapter from a builtin handler's result to the loop result of the
statement `return BUILTIN_COMMANDS[command_args[0]](command_args)`. -/
def builtinToLoop : Except Exn Nat × List Event → LoopRes × List Event
  | (Except.ok s, evs) => (LoopRes.returned s, evs)
  | (Except.error e, evs) => (LoopRes.raised e, evs)

/-- The `for i, command_args in enumerate(commands)` loop of
`execute_commands` (lines 91-141), with `prev` playing `prev_pipe`.
Empty stages are skipped.  The stage's command name is first rewritten by
`autocorrect_command`; a builtin at index > 0 prints the pipe-misuse
message and returns 1, a builtin at index 0 returns the handler's result.
For an external stage, `subprocess.run` is called: when `prev_pipe` holds
the previous stage's captured stdout *string*, the call raises
`AttributeError` before creating a process, which the bare
`except Exception` turns into a `display_error` call and `return 1`;
`FileNotFoundError` is reported with a command-not-found message.  On a
successful run the captured stdout is printed (when non-empty) to the
shell's stdout, `display_error` is called when the return code is
non-zero with non-empty stderr, then `learn_command` is invoked — an
exception it raises is caught by the same `except Exception`, reported,
and aborts the pipeline with `return 1`.  Finally the previous pipe
object is closed when it is not `sys.stdin`, and `prev_pipe` becomes the
captured stdout string of this stage. -/
def execute_stage_loop (env : Env) : Nat → Src → List (List String) → LoopRes × List Event
  | _, _, [] => (LoopRes.completed, [])
  | i, prev, args :: rest =>
    match args with
    | [] => execute_stage_loop env (i + 1) prev rest
    | a0 :: atail =>
      let name := autocorrect_command env.learned a0
      let cargs := name :: atail
      match BUILTIN_COMMANDS_get name with
      | some b =>
        if i > 0 then
          (LoopRes.returned 1,
            [Event.printErr "shellcraft: built-in commands cannot be piped."])
        else
          builtinToLoop (runBuiltin env b cargs)
      | none =>
        match prev with
        | Src.strData _ =>
          (LoopRes.returned 1,
            [Event.displayError (joinArgs cargs) "'str' object has no attribute 'fileno'"])
        | _ =>
          match env.spawn cargs with
          | SpawnResult.notFound =>
            (LoopRes.returned 1,
              [Event.displayError (joinArgs cargs) ("Command not found: " ++ name)])
          | SpawnResult.ok r =>
            let evs1 := [Event.spawned cargs prev]
            let evs2 := if r.stdout ≠ "" then [Event.printOut r.stdout] else []
            let evs3 :=
              if r.returncode ≠ 0 ∧ r.stderr ≠ "" then
                [Event.displayError (joinArgs cargs) r.stderr]
              else []
            match env.recordErr name with
            | some msg =>
              (LoopRes.returned 1,
                evs1 ++ evs2 ++ evs3 ++
                  [Event.learned name, Event.displayError (joinArgs cargs) msg])
            | none =>
              let evs4 := [Event.learned name]
              let evs5 :=
                match prev with
                | Src.file n => [Event.closedRead n]
                | _ => []
              let recres := execute_stage_loop env (i + 1) (Src.strData r.stdout) rest
              (recres.1, evs1 ++ evs2 ++ evs3 ++ evs4 ++ evs5 ++ recres.2)

/-- The last element of the commands list (`commands[-1]`); the caller
guarantees non-emptiness, the empty default is unreachable. -/
def lastStage : List (List String) → List String
  | [] => []
  | [x] => x
  | _ :: xs => lastStage xs

/-- Replace the last element (`commands[-1] = v`). -/
def replaceLast : List (List String) → List String → List (List String)
  | [], _ => []
  | [_], v => [v]
  | x :: xs, v => x :: replaceLast xs v

/-- The output-redirection step and the rest of `execute_commands` after
input redirection has been resolved (lines 82-151): when the last stage
contains a `>`, `filename = commands[-1][index + 1]` (possible
`IndexError`), the file is opened for truncating write and the last
stage's tokens are cut at the operator.  Then the stage loop runs, and
only when it falls off its end normally is the redirected stdout file
closed (an early `return` inside the loop skips the close) and 1
returned. -/
def execute_after_input (env : Env) (stdinSrc : Src) (evs0 : List Event)
    (commands : List (List String)) : Except Exn Nat × List Event :=
  match find_redirection (lastStage commands) ">" with
  | some (Except.error e) => (Except.error e, evs0)
  | some (Except.ok (newLast, outFile)) =>
    let commands2 := replaceLast commands newLast
    let r := execute_stage_loop env 0 stdinSrc commands2
    match r.1 with
    | LoopRes.completed =>
      (Except.ok 1,
        evs0 ++ [Event.openedWrite outFile] ++ r.2 ++ [Event.closedWrite outFile])
    | LoopRes.returned s => (Except.ok s, evs0 ++ [Event.openedWrite outFile] ++ r.2)
    | LoopRes.raised e => (Except.error e, evs0 ++ [Event.openedWrite outFile] ++ r.2)
  | none =>
    let r := execute_stage_loop env 0 stdinSrc commands
    match r.1 with
    | LoopRes.completed => (Except.ok 1, evs0 ++ r.2)
    | LoopRes.returned s => (Except.ok s, evs0 ++ r.2)
    | LoopRes.raised e => (Except.error e, evs0 ++ r.2)

/-- The function `execute_commands(commands)`.  An empty commands list
would make `commands[0]` raise `IndexError`.  When the first stage
contains a `<`, the named file is opened for reading: on
`FileNotFoundError` a message is printed to stderr and the function
returns 1 before anything is spawned; on success the opened file becomes
the initial `stdin_fd` and the first stage's tokens are cut at the
operator.  Then output redirection and the stage loop follow. -/
def execute_commands (env : Env) (commands : List (List String)) :
    Except Exn Nat × List Event :=
  match commands with
  | [] => (Except.error Exn.indexError, [])
  | first :: rest =>
    match find_redirection first "<" with
    | some (Except.error e) => (Except.error e, [])
    | some (Except.ok (newFirst, inFile)) =>
      if env.openRead inFile then
        execute_after_input env (Src.file inFile) [Event.openedRead inFile]
          (newFirst :: rest)
      else
        (Except.ok 1,
          [Event.printErr ("shellcraft: no such file or directory: " ++ inFile)])
    | none => execute_after_input env Src.stdinStd [] (first :: rest)

/- ------------------------------------------------------------------
shell_loop (ShellCraft.py lines 156-180), one iteration
------------------------------------------------------------------ -/

/-- Outcome of one iteration of `shell_loop` on a read line: either the
line was handled and the loop goes on with the returned status (`ran`),
or an exception other than `EOFError`/`KeyboardInterrupt` — the only two
the loop catches — escaped and the shell process terminates (`crashed`). -/
inductive LoopOutcome
  | ran (status : Nat) (events : List Event)
  | crashed (e : Exn) (events : List Event)
deriving DecidableEq

/-- Characters Python's `str.strip` removes with no arguments. -/
def isPySpace (c : Char) : Bool :=
  c = ' ' || c = '\t' || c = '\r' || c = '\n' || c = '\x0b' || c = '\x0c'

/-- The expression `line.strip()`: whitespace removed from both ends. -/
def pyStrip (s : String) : String :=
  String.mk (((s.data.dropWhile isPySpace).reverse.dropWhile isPySpace).reverse)

/-- One iteration of `shell_loop` after `input()` returned `line`: a
blank line is skipped (`continue`), otherwise the line is split on the
pipe character, each stage substring is tokenized by `shlex.split`
(whose `ValueError` is uncaught), and `execute_commands` runs (whose
uncaught exceptions also escape the loop). -/
def shell_loop_step (env : Env) (line : String) : LoopOutcome :=
  if pyStrip line = "" then LoopOutcome.ran 1 []
  else
    match tokenize_stages (split_on_pipe line) with
    | Except.error e => LoopOutcome.crashed e []
    | Except.ok commands =>
      match execute_commands env commands with
      | (Except.ok s, evs) => LoopOutcome.ran s evs
      | (Except.error e, evs) => LoopOutcome.crashed e evs

/- ------------------------------------------------------------------
Trace observations
------------------------------------------------------------------ -/

/-- Number of processes spawned in a trace. -/
def countSpawned : List Event → Nat
  | [] => 0
  | Event.spawned _ _ :: r => countSpawned r + 1
  | _ :: r => countSpawned r

/-- Number of invocations of the learning hook `learn_command` in a
trace. -/
def countLearned : List Event → Nat
  | [] => 0
  | Event.learned _ :: r => countLearned r + 1
  | _ :: r => countLearned r

/-- Number of calls of the `display_error` collaborator in a trace. -/
def countDisplayError : List Event → Nat
  | [] => 0
  | Event.displayError _ _ :: r => countDisplayError r + 1
  | _ :: r => countDisplayError r

/-- Whether a trace records any attempt at a stage with the given
(resolved) argv: a spawn of it, or an error report naming it. -/
def stageAttempt (argv : List String) (e : Event) : Bool :=
  match e with
  | Event.spawned a _ => a == argv
  | Event.displayError c _ => c == joinArgs argv
  | _ => false

/-- Final content of a file as determined by the file events of a trace:
the only file-writing operation the code ever performs on a redirection
target is `open(filename, 'w')`, which truncates it to empty. -/
def finalFileContent (evs : List Event) (name : String) : Option String :=
  evs.foldl
    (fun acc e =>
      match e with
      | Event.openedWrite n => if n = name then some "" else acc
      | _ => acc)
    none

/- ------------------------------------------------------------------
Concrete worlds used by the claim instances
------------------------------------------------------------------ -/

/-- A base world: home directory `/home/user`, nothing learned, every
file readable, every `chdir` succeeding, no external command installed,
the learning hook never failing. -/
def baseEnv : Env :=
  { home := "/home/user"
    learned := []
    openRead := fun _ => true
    chdir := fun _ => ChdirResult.ok
    spawn := fun _ => SpawnResult.notFound
    recordErr := fun _ => none }

/-- World for the `echo hello | cat` run: `echo hello` succeeds with
stdout `hello\n`. -/
def envEcho : Env :=
  { baseEnv with
    spawn := fun argv =>
      if argv = ["echo", "hello"] then SpawnResult.ok ⟨"hello\n", "", 0⟩
      else SpawnResult.notFound }

/-- World for the `echo hi > out.txt` and `echo hi | cat` runs:
`echo hi` succeeds with stdout `hi\n`. -/
def envEchoHi : Env :=
  { baseEnv with
    spawn := fun argv =>
      if argv = ["echo", "hi"] then SpawnResult.ok ⟨"hi\n", "", 0⟩
      else SpawnResult.notFound }

/-- World for the `ls | cd` run: `ls` succeeds with stdout `files\n`. -/
def envLs : Env :=
  { baseEnv with
    spawn := fun argv =>
      if argv = ["ls"] then SpawnResult.ok ⟨"files\n", "", 0⟩
      else SpawnResult.notFound }

/-- World where no file can be opened for reading (`missing.txt` is
absent). -/
def envNoFiles : Env :=
  { baseEnv with openRead := fun _ => false }

/-- World for the `cd` claims: `/nonexistent` is missing, `/tmp/afile`
exists but is a regular file, every other path is a directory. -/
def envCd : Env :=
  { baseEnv with
    chdir := fun p =>
      if p = "/nonexistent" then ChdirResult.notFound
      else if p = "/tmp/afile" then ChdirResult.notADir
      else ChdirResult.ok }

/-- World where the learning hook raises (say the learned-commands file
is unwritable) when invoked for `echo`. -/
def envRecordFail : Env :=
  { envEchoHi with
    recordErr := fun n => if n = "echo" then some "disk full" else none }

/- ==================================================================
Helper lemmas
================================================================== -/

theorem idxOf_append (pre l : List String) (op : String) (h : op ∉ pre) :
    idxOf (pre ++ op :: l) op = some pre.length := by
  induction pre with
  | nil => simp [idxOf]
  | cons p pre ih =>
    have hne : ¬p = op := fun hpe => h (hpe ▸ List.mem_cons_self p pre)
    have hnm : op ∉ pre := fun hm => h (List.mem_cons_of_mem p hm)
    simp [idxOf, hne, ih hnm]

theorem take_length_append (pre l : List String) : (pre ++ l).take pre.length = pre := by
  induction pre with
  | nil => simp
  | cons p pre ih => simp [ih]

theorem drop_length_succ_append (pre l : List String) (x : String) :
    (pre ++ x :: l).drop (pre.length + 1) = l := by
  induction pre with
  | nil => simp
  | cons p pre ih => simp [ih]

/-- The redirection step on a boundary token list that carries the
operator with a following token: the result is the prefix before the
operator together with that following token — everything from the
operator onward is cut away. -/
theorem find_redirection_strips (pre post : List String) (op f : String) (h : op ∉ pre) :
    find_redirection (pre ++ op :: f :: post) op = some (Except.ok (pre, f)) := by
  simp only [find_redirection, idxOf_append pre (f :: post) op h,
    drop_length_succ_append pre (f :: post) op, take_length_append pre (op :: f :: post)]

theorem idxOf_not_mem (l : List String) (t : String) (h : t ∉ l) : idxOf l t = none := by
  induction l with
  | nil => rfl
  | cons x l ih =>
    have hne : ¬x = t := fun hx => h (hx ▸ List.mem_cons_self x l)
    have hnm : t ∉ l := fun hm => h (List.mem_cons_of_mem x hm)
    simp [idxOf, hne, ih hnm]

theorem find_redirection_not_mem (toks : List String) (op : String) (h : op ∉ toks) :
    find_redirection toks op = none := by
  simp [find_redirection, idxOf_not_mem toks op h]

/-- A boundary token list whose operator is its last token makes the
redirection step raise `IndexError`: `toks[index + 1]` is out of range. -/
theorem find_redirection_dangling (pre : List String) (op : String) (h : op ∉ pre) :
    find_redirection (pre ++ [op]) op = some (Except.error Exn.indexError) := by
  simp only [find_redirection, idxOf_append pre [] op h,
    drop_length_succ_append pre [] op]

/-- Scanning inside an unclosed quote: when the rest of the input holds
neither the closing quote character nor a backslash, the lexer consumes
it all and fails at end of input with the no-closing-quotation error. -/
theorem shlexLoop_inQuote_unterminated (b : List Char) (q : Char) (hq : q ∉ b)
    (hb : '\\' ∉ b) :
    ∀ (tok : List Char) (started : Bool),
      shlexLoop b (LexState.inQuote q) tok started =
        Except.error (Exn.valueError "No closing quotation") := by
  induction b with
  | nil => intro tok started; rfl
  | cons c cs ih =>
    intro tok started
    have hcq : ¬c = q := fun hc => hq (hc ▸ List.mem_cons_self c cs)
    have hcb : ¬c = '\\' := fun hc => hb (hc ▸ List.mem_cons_self c cs)
    have hq2 : q ∉ cs := fun hm => hq (List.mem_cons_of_mem c hm)
    have hb2 : '\\' ∉ cs := fun hm => hb (List.mem_cons_of_mem c hm)
    simp [shlexLoop, hcq, hcb, ih hq2 hb2]

/-- A line made of a prefix free of quotes and escapes, an opening quote,
and a remainder that never closes it, always fails `shlex.split` with the
no-closing-quotation `ValueError` — whatever token was in progress. -/
theorem shlexLoop_unterminated_quote (a : List Char) (q : Char) (b : List Char)
    (hq : q = '\'' ∨ q = '"')
    (ha : ∀ c ∈ a, ¬c = '\'' ∧ ¬c = '"' ∧ ¬c = '\\')
    (hqb : q ∉ b) (hbb : '\\' ∉ b) :
    ∀ (tok : List Char) (started : Bool),
      shlexLoop (a ++ q :: b) LexState.normal tok started =
        Except.error (Exn.valueError "No closing quotation") := by
  induction a with
  | nil =>
    intro tok started
    rcases hq with rfl | rfl <;>
      simp [shlexLoop, isShlexWs, shlexLoop_inQuote_unterminated b _ hqb hbb]
  | cons c a ih =>
    intro tok started
    obtain ⟨hc1, hc2, hc3⟩ := ha c (List.mem_cons_self c a)
    have ha2 : ∀ x ∈ a, ¬x = '\'' ∧ ¬x = '"' ∧ ¬x = '\\' :=
      fun x hx => ha x (List.mem_cons_of_mem c hx)
    by_cases hws : isShlexWs c
    · cases started <;>
        simp [shlexLoop, hws, hc1, hc2, hc3, ih ha2, Except.map]
    · simp [shlexLoop, hws, hc1, hc2, hc3, ih ha2]

theorem splitOnPipeL_no_pipe (l : List Char) (h : '|' ∉ l) : splitOnPipeL l = [l] := by
  induction l with
  | nil => rfl
  | cons c cs ih =>
    have hne : ¬c = '|' := fun hc => h (hc ▸ List.mem_cons_self c cs)
    have hnm : '|' ∉ cs := fun hm => h (List.mem_cons_of_mem c hm)
    simp [splitOnPipeL, hne, ih hnm]

theorem splitOnPipeL_boundary (a b : List Char) (ha : '|' ∉ a) :
    splitOnPipeL (a ++ '|' :: b) = a :: splitOnPipeL b := by
  induction a with
  | nil => simp [splitOnPipeL]
  | cons c cs ih =>
    have hne : ¬c = '|' := fun hc => ha (hc ▸ List.mem_cons_self c cs)
    have hnm : '|' ∉ cs := fun hm => ha (List.mem_cons_of_mem c hm)
    simp [splitOnPipeL, hne, ih hnm]

theorem countSpawned_append (a b : List Event) :
    countSpawned (a ++ b) = countSpawned a + countSpawned b := by
  induction a with
  | nil => simp [countSpawned]
  | cons e r ih => cases e <;> simp [countSpawned, ih, Nat.add_right_comm]

theorem countLearned_append (a b : List Event) :
    countLearned (a ++ b) = countLearned a + countLearned b := by
  induction a with
  | nil => simp [countLearned]
  | cons e r ih => cases e <;> simp [countLearned, ih, Nat.add_right_comm]

theorem countDisplayError_append (a b : List Event) :
    countDisplayError (a ++ b) = countDisplayError a + countDisplayError b := by
  induction a with
  | nil => simp [countDisplayError]
  | cons e r ih => cases e <;> simp [countDisplayError, ih, Nat.add_right_comm]

theorem builtinToLoop_snd (x : Except Exn Nat × List Event) :
    (builtinToLoop x).2 = x.2 := by
  rcases x with ⟨f, s⟩
  cases f <;> rfl

theorem shell_cd_counts (env : Env) (args : List String) :
    countLearned (shell_cd env args).2 = 0 ∧ countSpawned (shell_cd env args).2 = 0 := by
  cases h : env.chdir (cd_target env args) <;>
    simp [shell_cd, h, countLearned, countSpawned]

theorem runBuiltin_counts (env : Env) (b : Builtin) (args : List String) :
    countLearned (runBuiltin env b args).2 = 0 ∧ countSpawned (runBuiltin env b args).2 = 0 := by
  cases b with
  | cd => exact shell_cd_counts env args
  | exit => exact ⟨rfl, rfl⟩

/-- Core balance invariant of the stage loop: every successful
`subprocess.run` is followed by exactly one `learn_command` invocation,
and `learn_command` is invoked nowhere else — so any trace the loop can
produce has as many record-hook invocations as spawned processes. -/
theorem loop_learned_eq_spawned (env : Env) (cmds : List (List String)) :
    ∀ (i : Nat) (prev : Src),
      countLearned (execute_stage_loop env i prev cmds).2 =
        countSpawned (execute_stage_loop env i prev cmds).2 := by
  induction cmds with
  | nil => intro i prev; simp [execute_stage_loop, countLearned, countSpawned]
  | cons args rest ih =>
    intro i prev
    cases args with
    | nil => simp only [execute_stage_loop]; exact ih (i + 1) prev
    | cons a0 atail =>
      simp only [execute_stage_loop]
      cases hb : BUILTIN_COMMANDS_get (autocorrect_command env.learned a0) with
      | some b =>
        by_cases hi : i > 0
        · simp [hi, countLearned, countSpawned]
        · simp only [hi, if_false]
          rw [builtinToLoop_snd]
          exact (runBuiltin_counts env b _).1.trans (runBuiltin_counts env b _).2.symm
      | none =>
        cases prev with
        | strData s => simp [countLearned, countSpawned]
        | stdinStd =>
          cases hs : env.spawn (autocorrect_command env.learned a0 :: atail) with
          | notFound => simp [countLearned, countSpawned]
          | ok r =>
            cases hr : env.recordErr (autocorrect_command env.learned a0) with
            | some msg =>
              simp [countLearned_append, countSpawned_append, countLearned, countSpawned]
              split <;> split <;> simp [countLearned, countSpawned]
            | none =>
              simp [countLearned_append, countSpawned_append, countLearned, countSpawned,
                ih (i + 1) (Src.strData r.stdout)]
              split <;> split <;> simp [countLearned, countSpawned]
        | file n =>
          cases hs : env.spawn (autocorrect_command env.learned a0 :: atail) with
          | notFound => simp [countLearned, countSpawned]
          | ok r =>
            cases hr : env.recordErr (autocorrect_command env.learned a0) with
            | some msg =>
              simp [countLearned_append, countSpawned_append, countLearned, countSpawned]
              split <;> split <;> simp [countLearned, countSpawned]
            | none =>
              simp [countLearned_append, countSpawned_append, countLearned, countSpawned,
                ih (i + 1) (Src.strData r.stdout)]
              split <;> split <;> simp [countLearned, countSpawned]

/-- The balance invariant lifted over the output-redirection step and the
trailing close, for preamble traces that contain no spawn and no
record-hook invocation. -/
theorem after_input_learned_eq_spawned (env : Env) (src : Src) (evs0 : List Event)
    (cmds : List (List String)) (h1 : countLearned evs0 = 0) (h2 : countSpawned evs0 = 0) :
    countLearned (execute_after_input env src evs0 cmds).2 =
      countSpawned (execute_after_input env src evs0 cmds).2 := by
  unfold execute_after_input
  cases hf : find_redirection (lastStage cmds) ">" with
  | none =>
    simp only [hf]
    cases hr : (execute_stage_loop env 0 src cmds).1 <;>
      simp [countLearned_append, countSpawned_append, h1, h2, countLearned, countSpawned,
        loop_learned_eq_spawned env cmds 0 src]
  | some x =>
    cases x with
    | error e => simp only [hf]; exact h1.trans h2.symm
    | ok p =>
      obtain ⟨newLast, outFile⟩ := p
      simp only [hf]
      cases hr : (execute_stage_loop env 0 src (replaceLast cmds newLast)).1 <;>
        simp [countLearned_append, countSpawned_append, h1, h2, countLearned, countSpawned,
          loop_learned_eq_spawned env (replaceLast cmds newLast) 0 src]

/- ==================================================================
Claim theorems
================================================================== -/

/-- C1: the claim says that for `echo hello | cat` the bytes written by
stage 1 are delivered exactly once as stage 2's input — that adjacent
stages are connected by a channel.  The code instead stores stage 1's
captured stdout as a Python string in `prev_pipe` and hands it to
`subprocess.run` as `stdin`, which raises `AttributeError` before a
process is created; stage 2 is never spawned and never consumes stage 1's
output, the pipeline aborts with an error report, and `hello` reaches the
shell's stdout only because the orchestrator prints stage 1's captured
output itself.  This theorem evaluates the code at the failing input:
exactly one process is spawned, and stage 2's only event is the
`AttributeError` report. -/
theorem c1_pipe_wiring_code_bug :
    execute_commands envEcho [["echo", "hello"], ["cat"]] =
      (Except.ok 1,
        [Event.spawned ["echo", "hello"] Src.stdinStd, Event.printOut "hello\n",
         Event.learned "echo",
         Event.displayError "cat" "'str' object has no attribute 'fileno'"]) ∧
    countSpawned (execute_commands envEcho [["echo", "hello"], ["cat"]]).2 = 1 :=
  ⟨rfl, rfl⟩

/-- C2: the claim says `echo hi > out.txt` writes `hi\n` into `out.txt`
and prints nothing to the shell's stdout.  The code opens `out.txt` for
truncating write but never uses the handle: the stage's captured stdout
is printed to the shell's own stdout and the file is closed still empty.
This theorem evaluates the code at the failing input: the only operation
performed on `out.txt` is the truncating open (final content the empty
string), while `hi\n` is printed to the shell's stdout. -/
theorem c2_output_redirection_code_bug :
    execute_commands envEchoHi [["echo", "hi", ">", "out.txt"]] =
      (Except.ok 1,
        [Event.openedWrite "out.txt", Event.spawned ["echo", "hi"] Src.stdinStd,
         Event.printOut "hi\n", Event.learned "echo", Event.closedWrite "out.txt"]) ∧
    finalFileContent
        (execute_commands envEchoHi [["echo", "hi", ">", "out.txt"]]).2 "out.txt" =
      some "" ∧
    Event.printOut "hi\n" ∈ (execute_commands envEchoHi [["echo", "hi", ">", "out.txt"]]).2 := by
  refine ⟨rfl, rfl, ?_⟩
  decide

/-- C3 (counterexample): the claim says malformed quoting or a dangling
redirection operator is reported as a ParseError and the read loop
continues.  On the line `echo 'hello` the shell instead crashes with an
uncaught `ValueError` from `shlex.split`, and on `echo >` with an
uncaught `IndexError` from `execute_commands` — `shell_loop` catches only
`EOFError` and `KeyboardInterrupt`, so both terminate the shell. -/
theorem c3_parse_error_counterexample :
    shell_loop_step baseEnv "echo 'hello" =
      LoopOutcome.crashed (Exn.valueError "No closing quotation") [] ∧
    shell_loop_step baseEnv "echo >" = LoopOutcome.crashed Exn.indexError [] :=
  ⟨rfl, rfl⟩

/-- C3 (amended): malformed quoting and dangling redirection operators
crash the shell instead of being reported.  In every world:
(1) whenever tokenizing a non-blank line fails, the exception escapes
`shell_loop` and the iteration crashes with an empty trace — no Pipeline
is executed, no stage spawned, nothing reported;
(2) every line made of a quote/escape-free prefix, an opening single or
double quote, and a remainder that never closes it fails `shlex.split`
with the no-closing-quotation `ValueError`;
(3) every pipeline whose first stage ends in a dangling `<` makes
`execute_commands` raise an uncaught `IndexError` before any spawn; and
(4) likewise for a last stage ending in a dangling `>` when the first
stage has no `<`. -/
theorem c3_parse_error_amended :
    (∀ (env : Env) (line : String) (e : Exn), ¬pyStrip line = "" →
      tokenize_stages (split_on_pipe line) = Except.error e →
      shell_loop_step env line = LoopOutcome.crashed e []) ∧
    (∀ (a : List Char) (q : Char) (b : List Char), q = '\'' ∨ q = '"' →
      (∀ c ∈ a, ¬c = '\'' ∧ ¬c = '"' ∧ ¬c = '\\') → q ∉ b → '\\' ∉ b →
      shlex_split (String.mk (a ++ q :: b)) =
        Except.error (Exn.valueError "No closing quotation")) ∧
    (∀ (env : Env) (pre : List String) (rest : List (List String)), "<" ∉ pre →
      execute_commands env ((pre ++ ["<"]) :: rest) =
        (Except.error Exn.indexError, [])) ∧
    (∀ (env : Env) (first : List String) (rest : List (List String)) (pre : List String),
      "<" ∉ first → ">" ∉ pre → lastStage (first :: rest) = pre ++ [">"] →
      execute_commands env (first :: rest) = (Except.error Exn.indexError, [])) := by
  refine ⟨?_, ?_, ?_, ?_⟩
  · intro env line e hne htok
    simp only [shell_loop_step, hne, if_false, htok]
  · intro a q b hq ha hqb hbb
    exact shlexLoop_unterminated_quote a q b hq ha hqb hbb [] false
  · intro env pre rest hp
    simp only [execute_commands, find_redirection_dangling pre "<" hp]
  · intro env first rest pre h1 h2 hlast
    simp only [execute_commands, find_redirection_not_mem first "<" h1,
      execute_after_input, hlast, find_redirection_dangling pre ">" h2]

/-- C3 (witness): the amended statements applied at `echo 'hello`
(tokenizer-error propagation and the unterminated-quote family) and at
`echo <` / `echo >` (the dangling-operator families). -/
theorem c3_parse_error_witness :
    shell_loop_step baseEnv "echo 'hello" =
      LoopOutcome.crashed (Exn.valueError "No closing quotation") [] ∧
    shlex_split (String.mk (['e', 'c', 'h', 'o', ' '] ++ '\'' :: ['h', 'e', 'l', 'l', 'o'])) =
      Except.error (Exn.valueError "No closing quotation") ∧
    execute_commands baseEnv ((["echo"] ++ ["<"]) :: []) =
      (Except.error Exn.indexError, []) ∧
    execute_commands baseEnv [["echo", ">"]] = (Except.error Exn.indexError, []) :=
  ⟨c3_parse_error_amended.1 baseEnv "echo 'hello"
      (Exn.valueError "No closing quotation") (by decide) rfl,
   c3_parse_error_amended.2.1 ['e', 'c', 'h', 'o', ' '] '\'' ['h', 'e', 'l', 'l', 'o']
      (Or.inl rfl) (by decide) (by decide) (by decide),
   c3_parse_error_amended.2.2.1 baseEnv ["echo"] [] (by decide),
   c3_parse_error_amended.2.2.2 baseEnv ["echo", ">"] [] ["echo"]
      (by decide) (by decide) rfl⟩

/-- C4 (counterexample): the claim says `ls | cd` spawns zero external
processes and invokes the ErrorReporter (`display_error`) exactly once.
In the code the builtin check happens per stage inside the loop: `ls` is
spawned and run to completion first, and the pipe-misuse diagnostic is a
direct stderr print, so one process is spawned and `display_error` is
invoked zero times. -/
theorem c4_builtin_pipe_counterexample :
    countSpawned (execute_commands envLs [["ls"], ["cd"]]).2 = 1 ∧
    countDisplayError (execute_commands envLs [["ls"], ["cd"]]).2 = 0 :=
  ⟨rfl, rfl⟩

/-- C4 (amended): when the stage loop reaches a stage at index > 0 whose
resolved name is a builtin, it stops at once: exactly one pipe-misuse
message is printed directly to stderr (not through `display_error`), the
pipeline aborts with status Continue, and the offending and later stages
are not spawned — but stages before the offending builtin have already
been run, as the `ls | cd` instance shows. -/
theorem c4_builtin_pipe_amended :
    (∀ (env : Env) (i : Nat) (prev : Src) (a : String) (atail : List String)
       (rest : List (List String)) (b : Builtin), 0 < i →
       BUILTIN_COMMANDS_get (autocorrect_command env.learned a) = some b →
       execute_stage_loop env i prev ((a :: atail) :: rest) =
         (LoopRes.returned 1,
           [Event.printErr "shellcraft: built-in commands cannot be piped."])) ∧
    execute_commands envLs [["ls"], ["cd"]] =
      (Except.ok 1,
        [Event.spawned ["ls"] Src.stdinStd, Event.printOut "files\n", Event.learned "ls",
         Event.printErr "shellcraft: built-in commands cannot be piped."]) := by
  refine ⟨?_, rfl⟩
  intro env i prev a atail rest b hi hb
  simp only [execute_stage_loop, hb]
  simp [hi]

/-- C4 (witness): the amended loop statement applied at the `cd` stage of
`ls | cd`, which the loop reaches at index 1. -/
theorem c4_builtin_pipe_witness :
    execute_stage_loop envLs 1 (Src.strData "files\n") [["cd"]] =
      (LoopRes.returned 1,
        [Event.printErr "shellcraft: built-in commands cannot be piped."]) :=
  c4_builtin_pipe_amended.1 envLs 1 (Src.strData "files\n") "cd" [] [] Builtin.cd
    (by decide) rfl

/-- C5 (counterexample): the claim says exactly two tokens (the operator
and the following filename) are removed, so `cat < f.txt extra` should
keep `extra` in the argument vector.  The code slices the list at the
operator's position, so the resulting argv is `[cat]`, not
`[cat, extra]`. -/
theorem c5_redirection_strip_counterexample :
    find_redirection ["cat", "<", "f.txt", "extra"] "<" =
      some (Except.ok (["cat"], "f.txt")) ∧
    (["cat"] : List String) ≠ ["cat", "extra"] := by
  refine ⟨rfl, ?_⟩
  decide

/-- C5 (amended): for a boundary stage whose token list is
`pre ++ op :: f :: post` with the operator not occurring in `pre`, the
recorded filename is `f` and the remaining argument vector is exactly
`pre`: the operator and every token after it are removed (the list is
truncated at the operator), so exactly two tokens are removed only when
the filename is the final token. -/
theorem c5_redirection_strip_amended :
    ∀ (pre post : List String) (op f : String), op ∉ pre →
      find_redirection (pre ++ op :: f :: post) op = some (Except.ok (pre, f)) :=
  fun pre post op f h => find_redirection_strips pre post op f h

/-- C5 (witness): the amended statement at the concrete stage
`cat < f.txt extra`. -/
theorem c5_redirection_strip_witness :
    find_redirection (["cat"] ++ "<" :: "f.txt" :: ["extra"]) "<" =
      some (Except.ok (["cat"], "f.txt")) :=
  c5_redirection_strip_amended ["cat"] ["extra"] "<" "f.txt" (by decide)

/-- C6 (counterexample): the claim says a `|` inside quotes does not
create a stage boundary, so `echo 'a|b'` should be a single stage.  The
code splits with `line.split('|')`, which is quote-blind: the line
becomes two stage substrings. -/
theorem c6_pipe_split_counterexample :
    split_on_pipe "echo 'a|b'" = ["echo 'a", "b'"] ∧
    (split_on_pipe "echo 'a|b'").length ≠ 1 := by
  refine ⟨rfl, ?_⟩
  decide

/-- C6 (amended): splitting on the pipe character is quote-blind — every
occurrence of `|` creates a stage boundary, quoted or not; a line whose
only `|` sits inside quotes then fails tokenization with an unterminated
quote `ValueError` that crashes the read loop. -/
theorem c6_pipe_split_amended :
    (∀ a b : List Char, '|' ∉ a → '|' ∉ b → splitOnPipeL (a ++ '|' :: b) = [a, b]) ∧
    shell_loop_step baseEnv "echo 'a|b'" =
      LoopOutcome.crashed (Exn.valueError "No closing quotation") [] := by
  refine ⟨fun a b ha hb => ?_, rfl⟩
  rw [splitOnPipeL_boundary a b ha, splitOnPipeL_no_pipe b hb]

/-- C6 (witness): the amended split statement at the characters of
`echo 'a|b'`. -/
theorem c6_pipe_split_witness :
    splitOnPipeL (['e', 'c', 'h', 'o', ' ', '\'', 'a'] ++ '|' :: ['b', '\'']) =
      [['e', 'c', 'h', 'o', ' ', '\'', 'a'], ['b', '\'']] :=
  c6_pipe_split_amended.1 ['e', 'c', 'h', 'o', ' ', '\'', 'a'] ['b', '\'']
    (by decide) (by decide)

/-- C7 (counterexample): the claim says a cd failure is never fatal and
always yields Continue.  When the target exists but is not a directory,
`os.chdir` raises `NotADirectoryError`, which `shell_cd` does not catch
(it catches only `FileNotFoundError`); the exception escapes
`execute_commands` and `shell_loop`, crashing the shell. -/
theorem c7_cd_failure_counterexample :
    shell_cd envCd ["cd", "/tmp/afile"] =
      (Except.error (Exn.notADirectoryError "/tmp/afile"), []) ∧
    shell_loop_step envCd "cd /tmp/afile" =
      LoopOutcome.crashed (Exn.notADirectoryError "/tmp/afile") [] :=
  ⟨rfl, rfl⟩

/-- C7 (amended): with zero arguments the cd target is the home
directory; on a missing target the working directory is unchanged,
exactly one error line is printed to stderr, and the result is Continue
(status 1); but on a target that is not a directory the uncaught
`NotADirectoryError` propagates and is fatal to the shell. -/
theorem c7_cd_failure_amended :
    (∀ (env : Env) (t : String) (rest : List String),
      env.chdir t = ChdirResult.notFound →
      shell_cd env ("cd" :: t :: rest) =
        (Except.ok 1,
          [Event.printErr ("shellcraft: cd: no such file or directory: " ++ t)])) ∧
    (∀ env : Env, cd_target env ["cd"] = env.home) ∧
    (∀ (env : Env) (t : String) (rest : List String),
      env.chdir t = ChdirResult.notADir →
      shell_cd env ("cd" :: t :: rest) = (Except.error (Exn.notADirectoryError t), [])) := by
  refine ⟨?_, fun env => rfl, ?_⟩
  · intro env t rest h
    simp [shell_cd, cd_target, h]
  · intro env t rest h
    simp [shell_cd, cd_target, h]

/-- C7 (witness): the amended missing-target statement at
`cd /nonexistent` in the world `envCd`. -/
theorem c7_cd_failure_witness :
    shell_cd envCd ["cd", "/nonexistent"] =
      (Except.ok 1,
        [Event.printErr ("shellcraft: cd: no such file or directory: " ++ "/nonexistent")]) :=
  c7_cd_failure_amended.1 envCd "/nonexistent" [] rfl

/-- C8 (counterexample): the claim says `cat < missing.txt` invokes the
ErrorReporter (`display_error`) exactly once.  The code prints the
file-not-found message directly to stderr and never calls
`display_error` on this path: the trace holds one stderr print and zero
`display_error` calls (and zero spawns, with status Continue, which the
claim gets right). -/
theorem c8_input_redirection_counterexample :
    execute_commands envNoFiles [["cat", "<", "missing.txt"]] =
      (Except.ok 1,
        [Event.printErr "shellcraft: no such file or directory: missing.txt"]) ∧
    countDisplayError (execute_commands envNoFiles [["cat", "<", "missing.txt"]]).2 = 0 ∧
    countSpawned (execute_commands envNoFiles [["cat", "<", "missing.txt"]]).2 = 0 :=
  ⟨rfl, rfl, rfl⟩

/-- C8 (amended): for every pipeline whose first stage carries an input
redirection naming an unopenable file, the whole pipeline is aborted
before any process is spawned and the status is Continue — but the single
file-not-found message is printed directly to stderr; the
`display_error` collaborator is not invoked. -/
theorem c8_input_redirection_amended :
    ∀ (env : Env) (pre post : List String) (f : String) (rest : List (List String)),
      "<" ∉ pre → env.openRead f = false →
      execute_commands env ((pre ++ "<" :: f :: post) :: rest) =
        (Except.ok 1,
          [Event.printErr ("shellcraft: no such file or directory: " ++ f)]) := by
  intro env pre post f rest hp ho
  simp only [execute_commands, find_redirection_strips pre post "<" f hp, ho]
  simp

/-- C8 (witness): the amended statement at `cat < missing.txt` in the
world `envNoFiles`, where no file opens for reading. -/
theorem c8_input_redirection_witness :
    execute_commands envNoFiles ((["cat"] ++ "<" :: "missing.txt" :: []) :: []) =
      (Except.ok 1,
        [Event.printErr ("shellcraft: no such file or directory: " ++ "missing.txt")]) :=
  c8_input_redirection_amended envNoFiles ["cat"] [] "missing.txt" [] (by decide) rfl

/-- C9 (counterexample): the claim says a failure raised inside the
record hook does not abort the pipeline.  With a failing hook, the
`learn_command` exception is caught by the stage loop's bare
`except Exception`, reported through `display_error`, and the loop
returns at once: in the failing world the trace for
`echo hi | cat` ends with the record-failure report and contains no
attempt at the `cat` stage, while in the same world with a non-failing
hook the `cat` stage is attempted. -/
theorem c9_record_hook_counterexample :
    execute_commands envRecordFail [["echo", "hi"], ["cat"]] =
      (Except.ok 1,
        [Event.spawned ["echo", "hi"] Src.stdinStd, Event.printOut "hi\n",
         Event.learned "echo", Event.displayError "echo hi" "disk full"]) ∧
    List.filter (stageAttempt ["cat"])
        (execute_commands envRecordFail [["echo", "hi"], ["cat"]]).2 = [] ∧
    List.filter (stageAttempt ["cat"])
        (execute_commands envEchoHi [["echo", "hi"], ["cat"]]).2 =
      [Event.displayError "cat" "'str' object has no attribute 'fileno'"] :=
  ⟨rfl, rfl, rfl⟩

/-- C9 (amended): the record hook `learn_command` is invoked exactly once
per successfully spawned external stage — never for builtins and never
for stages that failed to spawn — so in every world and for every
commands list the trace of `execute_commands` carries as many record
invocations as spawned processes.  The hook is however not fire-and-
forget: a failure it raises aborts the pipeline (see the
counterexample). -/
theorem c9_record_hook_amended :
    ∀ (env : Env) (commands : List (List String)),
      countLearned (execute_commands env commands).2 =
        countSpawned (execute_commands env commands).2 := by
  intro env commands
  cases commands with
  | nil => simp [execute_commands, countLearned, countSpawned]
  | cons first rest =>
    unfold execute_commands
    cases hf : find_redirection first "<" with
    | none =>
      simp only [hf]
      exact after_input_learned_eq_spawned env Src.stdinStd [] (first :: rest) rfl rfl
    | some x =>
      cases x with
      | error e => simp only [hf]; rfl
      | ok p =>
        obtain ⟨newFirst, inFile⟩ := p
        simp only [hf]
        by_cases ho : env.openRead inFile
        · simp only [ho, if_true]
          exact after_input_learned_eq_spawned env (Src.file inFile)
            [Event.openedRead inFile] (newFirst :: rest) rfl rfl
        · simp [ho, countLearned, countSpawned]

/-- C10: in a multi-stage pipeline whose first stage resolves to a
builtin, the stage loop executes the builtin handler in-process and
returns its result immediately — the remaining stages are never examined
or spawned and no error is reported; in particular `exit | ls` yields
status 0 (Terminate) with an empty trace, and `cd /tmp | ls` changes
directory and yields status 1 (Continue) without running `ls`. -/
theorem c10_first_stage_builtin :
    (∀ (env : Env) (prev : Src) (a : String) (atail : List String)
       (rest : List (List String)) (b : Builtin),
       BUILTIN_COMMANDS_get (autocorrect_command env.learned a) = some b →
       execute_stage_loop env 0 prev ((a :: atail) :: rest) =
         builtinToLoop (runBuiltin env b (autocorrect_command env.learned a :: atail))) ∧
    execute_commands baseEnv [["exit"], ["ls"]] = (Except.ok 0, []) ∧
    execute_commands baseEnv [["cd", "/tmp"], ["ls"]] =
      (Except.ok 1, [Event.chdirTo "/tmp"]) := by
  refine ⟨?_, rfl, rfl⟩
  intro env prev a atail rest b hb
  simp only [execute_stage_loop, hb]
  simp

/-- C10 (witness): the loop statement applied to the first stage of
`exit | ls`. -/
theorem c10_first_stage_builtin_witness :
    execute_stage_loop baseEnv 0 Src.stdinStd [["exit"], ["ls"]] =
      builtinToLoop
        (runBuiltin baseEnv Builtin.exit (autocorrect_command baseEnv.learned "exit" :: [])) :=
  c10_first_stage_builtin.1 baseEnv Src.stdinStd "exit" [] [["ls"]] Builtin.exit rfl

end ShellCraft
